import Mathlib

/-!
Shallow embedding of the word-converter service (DOCX → HTML normalisation
layer): the paragraph-style resolver (`DocumentTransformer.transform_paragraph`),
the style-mapping table and diagnostic classifier (`StyleMapper`), and the
conversion orchestrator (`ConverterService.convert_file`), together with
theorems settling the specification claims.
-/

namespace WordConverter

/-- A paragraph-like element of the renderer's document tree.  `style_id` and
`style_name` are optional strings (Python `Optional[str]`; `none` is Python
`None`, `some ""` an empty string — both falsy).  `children` stands for the
element's content, which the resolver never inspects. -/
structure ParagraphElement where
  style_id : Option String
  style_name : Option String
  children : List String
deriving DecidableEq

/-- Python truthiness of an optional string: `None` and `""` are falsy. -/
def truthy : Option String → Bool
  | none => false
  | some s => !(s == "")

/-- Python `element.style_id in ids`: a present id that occurs in the list. -/
def idIn (e : ParagraphElement) (ids : List String) : Bool :=
  match e.style_id with
  | some s => ids.contains s
  | none => false

/-- The fixed ambiguous-id set held by `DocumentTransformer`. -/
def undefined_style_ids : List String :=
  ["Style2", "Style4", "Style18", "20", "1", "a9", "ab", "24", "11", "30"]

/-- `transform_paragraph` from `app/models/document_transformer.py`.  The two
trailing Python `if` blocks are sequential with early returns; since the first
block returns on every path and the second block makes its id truthy, the
chain below is the same control flow. -/
def transform_paragraph (e : ParagraphElement) : ParagraphElement :=
  if idIn e undefined_style_ids then
    if idIn e ["11", "24"] then
      let heading_level : Nat := if e.style_id == some "11" then 1 else 2
      { e with style_id := some ("Heading" ++ toString heading_level),
               style_name := some ("Заголовок №" ++ toString heading_level) }
    else if e.style_id == some "a9" then
      { e with style_id := some "TableCaption",
               style_name := some "Подпись к таблице" }
    else
      { e with style_id := some "Normal",
               style_name := some "Основной текст" }
  else if e.style_name == some "None" && truthy e.style_id then
    if idIn e ["Style2", "Style4", "Style18"] then
      { e with style_id := some "Normal",
               style_name := some "Основной текст" }
    else e
  else if !truthy e.style_id && !truthy e.style_name then
    { e with style_id := some "Normal",
             style_name := some "Основной текст" }
  else e

example :
    transform_paragraph ⟨some "11", some "anything", ["t"]⟩ =
      ⟨some "Heading1", some "Заголовок №1", ["t"]⟩ := by decide

example :
    transform_paragraph ⟨some "24", none, []⟩ =
      ⟨some "Heading2", some "Заголовок №2", []⟩ := by decide

example :
    transform_paragraph ⟨some "a9", some "x", []⟩ =
      ⟨some "TableCaption", some "Подпись к таблице", []⟩ := by decide

example :
    transform_paragraph ⟨some "20", some "x", []⟩ =
      ⟨some "Normal", some "Основной текст", []⟩ := by decide

example :
    transform_paragraph ⟨some "11", some "None", []⟩ =
      ⟨some "Heading1", some "Заголовок №1", []⟩ := by decide

example :
    transform_paragraph ⟨some "Zzz", some "None", []⟩ = ⟨some "Zzz", some "None", []⟩ := by
  decide

example :
    transform_paragraph ⟨none, none, ["c"]⟩ =
      ⟨some "Normal", some "Основной текст", ["c"]⟩ := by decide

example :
    transform_paragraph ⟨some "Custom", some "MyStyle", []⟩ =
      ⟨some "Custom", some "MyStyle", []⟩ := by decide

/-- The single-quote character, used by the mapping-rule syntax. -/
def sq : String := ⟨[Char.ofNat 39]⟩

/-- `StyleMapper.russian_headings`. -/
def russian_headings : List String :=
  ["Заголовок №1", "Заголовок №2", "Заголовок №3",
   "Заголовок №4", "Заголовок №5", "Заголовок №6"]

/-- `StyleMapper.text_styles`. -/
def text_styles : List String :=
  ["Основной текст", "Основной текст (2)", "Основной текст (3)",
   "Основной текст1", "Обычный текст", "Normal"]

/-- `StyleMapper.special_styles` (a dict iterated in insertion order). -/
def special_styles : List (String × String) :=
  [("Подпись к таблице", "table-caption"), ("Другое", "other"), ("None", "default")]

/-- One `p[style-name=...] => target:fresh` rule line. -/
def styleRule (name target : String) : String :=
  "p[style-name=" ++ sq ++ name ++ sq ++ "] => " ++ target ++ ":fresh"

/-- The `mappings` list built by `StyleMapper.create_style_mapping`: headings
enumerated from 1, then text styles, then special styles, then the fixed
extension block for ids rewritten by the document transformer. -/
def create_style_mapping_list : List String :=
  ((List.enumFrom 1 russian_headings).map fun p => styleRule p.2 ("h" ++ toString p.1))
  ++ (text_styles.map fun t => styleRule t "p")
  ++ (special_styles.map fun p =>
        if p.2 == "default" then styleRule p.1 "p"
        else styleRule p.1 ("p." ++ p.2))
  ++ [styleRule "Основной текст" "p",
      styleRule "Заголовок №1" "h1",
      styleRule "Заголовок №2" "h2",
      styleRule "Подпись к таблице" "p.table-caption",
      styleRule "TableCaption" "p.table-caption",
      styleRule "Heading1" "h1",
      styleRule "Heading2" "h2",
      styleRule "Normal" "p"]

/-- `StyleMapper.create_style_mapping`: the rule lines joined with newlines. -/
def create_style_mapping : String :=
  String.intercalate "\n" create_style_mapping_list

/-- `p` occurs as a contiguous sublist of `s` (Python `pat in s` on strings). -/
def containsList (s : List Char) (p : List Char) : Bool :=
  if p.isPrefixOf s then true
  else
    match s with
    | [] => false
    | _ :: t => containsList t p

/-- Python substring test `pat in s`. -/
def containsSubstr (s pat : String) : Bool := containsList s.data pat.data

/-- The five-category dictionary built by `analyze_style_warnings`. -/
structure CategorizedDiagnostics where
  undefined_styles : List String
  unrecognized_styles : List String
  missing_elements : List String
  table_formatting_ignored : List String
  other_warnings : List String
deriving DecidableEq

/-- The initial all-empty dictionary. -/
def emptyCategorized : CategorizedDiagnostics := ⟨[], [], [], [], []⟩

/-- One iteration of the classification loop in `analyze_style_warnings`:
append the warning to the first category whose literal pattern it contains. -/
def classifyStep (c : CategorizedDiagnostics) (w : String) : CategorizedDiagnostics :=
  if containsSubstr w "was referenced but not defined" then
    { c with undefined_styles := c.undefined_styles ++ [w] }
  else if containsSubstr w "Unrecognised paragraph style" then
    { c with unrecognized_styles := c.unrecognized_styles ++ [w] }
  else if containsSubstr w "unrecognised element was ignored" then
    if containsSubstr w "w:tblPrEx" then
      { c with table_formatting_ignored := c.table_formatting_ignored ++ [w] }
    else
      { c with missing_elements := c.missing_elements ++ [w] }
  else
    { c with other_warnings := c.other_warnings ++ [w] }

/-- `StyleMapper.analyze_style_warnings`. -/
def analyze_style_warnings (warnings : List String) : CategorizedDiagnostics :=
  warnings.foldl classifyStep emptyCategorized

/-- Names for the five categories, for reasoning about the classifier. -/
inductive Cat
  | undefined
  | unrecognized
  | missing
  | tableFmt
  | other
deriving DecidableEq

/-- The category the classification loop sends one warning to. -/
def categoryOf (w : String) : Cat :=
  if containsSubstr w "was referenced but not defined" then .undefined
  else if containsSubstr w "Unrecognised paragraph style" then .unrecognized
  else if containsSubstr w "unrecognised element was ignored" then
    if containsSubstr w "w:tblPrEx" then .tableFmt else .missing
  else .other

/-- The sublist of warnings sent to the category `c`. -/
def catFilter (c : Cat) (ws : List String) : List String :=
  ws.filter fun w => categoryOf w = c

/-- The `summary_parts` list built by `get_warning_summary`, in source order:
undefined, unrecognized, table-formatting (fixed note), missing. -/
def summary_parts (c : CategorizedDiagnostics) : List String :=
  (if c.undefined_styles.isEmpty then []
   else ["Неопределенные стили: " ++ toString c.undefined_styles.length])
  ++ (if c.unrecognized_styles.isEmpty then []
      else ["Нераспознанные стили: " ++ toString c.unrecognized_styles.length])
  ++ (if c.table_formatting_ignored.isEmpty then []
      else ["Форматирование таблиц проигнорировано (ожидаемо)"])
  ++ (if c.missing_elements.isEmpty then []
      else ["Пропущенные элементы: " ++ toString c.missing_elements.length])

/-- `StyleMapper.get_warning_summary`. -/
def get_warning_summary (c : CategorizedDiagnostics) : String :=
  if (summary_parts c).isEmpty then "Все стили обработаны успешно"
  else String.intercalate "; " (summary_parts c)

example : styleRule "Heading1" "h1" = "p[style-name=" ++ sq ++ "Heading1" ++ sq ++ "] => h1:fresh" := by
  decide

example :
    analyze_style_warnings
      ["Paragraph style with ID x was referenced but not defined",
       "An unrecognised element was ignored: w:tblPrEx",
       "something odd"] =
    ⟨["Paragraph style with ID x was referenced but not defined"], [], [],
     ["An unrecognised element was ignored: w:tblPrEx"], ["something odd"]⟩ := by decide

example :
    get_warning_summary ⟨["a"], ["b"], [], [], []⟩ =
      "Неопределенные стили: 1; Нераспознанные стили: 1" := by decide

example : get_warning_summary ⟨[], [], [], [], ["x"]⟩ = "Все стили обработаны успешно" := by
  decide

/-- A diagnostic message from the renderer, tagged `warning` or `error`. -/
structure MammothMessage where
  type : String
  message : String
deriving DecidableEq

/-- The uploaded file as the service sees it: a filename and raw bytes. -/
structure UploadFileM where
  filename : String
  content : List Nat
deriving DecidableEq

/-- The external renderer (`mammoth.convert_to_html`) as a black box: bytes in,
either a raised error or rendered markup plus diagnostic messages. -/
def Renderer : Type := List Nat → Except String (String × List MammothMessage)

/-- The two failure kinds of `convert_file`: HTTP 400 and HTTP 500. -/
inductive ConvertError
  | invalidInput (detail : String)
  | conversionFailure (detail : String)
deriving DecidableEq

/-- The result record returned by `convert_file`. -/
structure ConversionOutcome where
  original_filename : String
  file_size : Nat
  html_content : String
  complete_html : String
  conversion_warnings : List String
  conversion_errors : List String
  style_analysis : CategorizedDiagnostics
  warning_summary : String
  warnings_count : Nat
  errors_count : Nat
  status : String
deriving DecidableEq

/-- Python `str.lower`, character by character. -/
def strToLower (s : String) : String := ⟨s.data.map Char.toLower⟩

/-- Python `str.endswith`. -/
def strEndsWith (s suf : String) : Bool := suf.data.isSuffixOf s.data

/-- `ConverterService._create_complete_html`: the template is literally
`f"""{html_content}"""`, so it returns the rendered markup unchanged and
ignores the filename. -/
def create_complete_html (html_content : String) (filename : String) : String :=
  html_content

/-- `ConverterService.convert_file`: validate the filename, read the bytes,
invoke the renderer, split and classify its messages, and assemble the result
record; a renderer exception is wrapped into a 500 `conversionFailure`. -/
def convert_file (render : Renderer) (file : UploadFileM) : Except ConvertError ConversionOutcome :=
  if file.filename == "" then
    Except.error (ConvertError.invalidInput "Файл не выбран")
  else if !strEndsWith (strToLower file.filename) ".docx" then
    Except.error (ConvertError.invalidInput "Поддерживаются только DOCX файлы")
  else
    match render file.content with
    | Except.error e =>
        Except.error (ConvertError.conversionFailure ("Ошибка при конвертации файла: " ++ e))
    | Except.ok (html_content, messages) =>
        let file_size := file.content.length
        let warnings := (messages.filter fun m => m.type == "warning").map fun m => m.message
        let errors := (messages.filter fun m => m.type == "error").map fun m => m.message
        let style_analysis := analyze_style_warnings warnings
        let warning_summary := get_warning_summary style_analysis
        let complete_html := create_complete_html html_content file.filename
        let status := if errors.isEmpty then "success" else "success_with_errors"
        Except.ok
          { original_filename := file.filename
            file_size := file_size
            html_content := html_content
            complete_html := complete_html
            conversion_warnings := warnings
            conversion_errors := errors
            style_analysis := style_analysis
            warning_summary := warning_summary
            warnings_count := warnings.length
            errors_count := errors.length
            status := status }

/-- Whether a conversion call returned without raising. -/
def exceptIsOk : Except ConvertError ConversionOutcome → Bool
  | Except.ok _ => true
  | Except.error _ => false

/-- Placeholder outcome, for reading a successful result out of an `Except`. -/
def defaultOutcome : ConversionOutcome :=
  ⟨"", 0, "", "", [], [], emptyCategorized, "", 0, 0, ""⟩

/-- The outcome of a successful conversion call. -/
def getOk : Except ConvertError ConversionOutcome → ConversionOutcome
  | Except.ok o => o
  | Except.error _ => defaultOutcome

/-- A renderer stub that always raises. -/
def renderFail : Renderer := fun _ => Except.error "not a valid docx payload"

/-- A renderer stub that succeeds with no diagnostics. -/
def renderOkEmpty : Renderer := fun _ => Except.ok ("<p>ok</p>", [])

/-- A renderer stub that succeeds with one warning and one error message. -/
def renderOkMixed : Renderer := fun _ =>
  Except.ok ("<p>m</p>", [⟨"warning", "Unrecognised paragraph style: X"⟩, ⟨"error", "boom"⟩])

example :
    convert_file renderOkEmpty ⟨"report.txt", [1, 2]⟩ =
      Except.error (ConvertError.invalidInput "Поддерживаются только DOCX файлы") := by rfl

example :
    convert_file renderOkEmpty ⟨"", [1, 2]⟩ =
      Except.error (ConvertError.invalidInput "Файл не выбран") := by rfl

example :
    convert_file renderFail ⟨"Report.DOCX", [1]⟩ =
      Except.error
        (ConvertError.conversionFailure
          "Ошибка при конвертации файла: not a valid docx payload") := by rfl

example : (getOk (convert_file renderOkEmpty ⟨"a.docx", [1]⟩)).status = "success" := by decide

example :
    (getOk (convert_file renderOkMixed ⟨"a.docx", [1]⟩)).status = "success_with_errors" := by
  decide

example :
    (getOk (convert_file renderOkMixed ⟨"a.docx", [1]⟩)).warning_summary =
      "Нераспознанные стили: 1" := by decide

/-! ## Helper lemmas about the resolver -/

lemma idIn_iff {e : ParagraphElement} {ids : List String} :
    idIn e ids = true ↔ ∃ s, e.style_id = some s ∧ s ∈ ids := by
  cases h : e.style_id <;> simp [idIn, h]

lemma transform_id11 (e : ParagraphElement) (hid : e.style_id = some "11") :
    transform_paragraph e =
      { e with style_id := some "Heading1", style_name := some "Заголовок №1" } := by
  simp [transform_paragraph, idIn, hid, undefined_style_ids]
  exact ⟨by decide, by decide⟩

lemma transform_id24 (e : ParagraphElement) (hid : e.style_id = some "24") :
    transform_paragraph e =
      { e with style_id := some "Heading2", style_name := some "Заголовок №2" } := by
  simp [transform_paragraph, idIn, hid, undefined_style_ids]
  exact ⟨by decide, by decide⟩

lemma transform_ida9 (e : ParagraphElement) (hid : e.style_id = some "a9") :
    transform_paragraph e =
      { e with style_id := some "TableCaption", style_name := some "Подпись к таблице" } := by
  simp [transform_paragraph, idIn, hid, undefined_style_ids]

lemma transform_idOther (e : ParagraphElement) (s : String) (hid : e.style_id = some s)
    (hs : s ∈ ["Style2", "Style4", "Style18", "20", "1", "ab", "30"]) :
    transform_paragraph e =
      { e with style_id := some "Normal", style_name := some "Основной текст" } := by
  fin_cases hs <;> simp [transform_paragraph, idIn, hid, undefined_style_ids]

lemma transform_fixed (e : ParagraphElement)
    (h : (e.style_id = some "Heading1" ∧ e.style_name = some "Заголовок №1") ∨
         (e.style_id = some "Heading2" ∧ e.style_name = some "Заголовок №2") ∨
         (e.style_id = some "TableCaption" ∧ e.style_name = some "Подпись к таблице") ∨
         (e.style_id = some "Normal" ∧ e.style_name = some "Основной текст")) :
    transform_paragraph e = e := by
  obtain ⟨h1, h2⟩ | ⟨h1, h2⟩ | ⟨h1, h2⟩ | ⟨h1, h2⟩ := h <;>
    simp [transform_paragraph, idIn, truthy, h1, h2, undefined_style_ids]

lemma transform_unchanged (e : ParagraphElement)
    (h1 : idIn e undefined_style_ids = false)
    (h2 : (e.style_name == some "None" && truthy e.style_id) = false)
    (h3 : (!truthy e.style_id && !truthy e.style_name) = false) :
    transform_paragraph e = e := by
  unfold transform_paragraph
  simp [h1, h2, h3]

lemma transform_noneName_unchanged (e : ParagraphElement)
    (h1 : idIn e undefined_style_ids = false)
    (hn : e.style_name = some "None") (ht : truthy e.style_id = true) :
    transform_paragraph e = e := by
  have h3 : idIn e ["Style2", "Style4", "Style18"] = false := by
    cases h : idIn e ["Style2", "Style4", "Style18"] with
    | false => rfl
    | true =>
      obtain ⟨s, hid, hs⟩ := idIn_iff.mp h
      have : idIn e undefined_style_ids = true := by
        refine idIn_iff.mpr ⟨s, hid, ?_⟩
        fin_cases hs <;> decide
      rw [this] at h1
      exact absurd h1 (by decide)
  unfold transform_paragraph
  simp [h1, h3, hn, ht]

lemma transform_bothEmpty (e : ParagraphElement)
    (h1 : truthy e.style_id = false) (h2 : truthy e.style_name = false) :
    transform_paragraph e =
      { e with style_id := some "Normal", style_name := some "Основной текст" } := by
  cases hid : e.style_id with
  | none =>
    cases hn : e.style_name with
    | none => simp [transform_paragraph, idIn, truthy, hid, hn]
    | some t =>
      rw [hn] at h2
      simp [truthy] at h2
      simp [transform_paragraph, idIn, truthy, hid, hn, h2]
  | some s =>
    rw [hid] at h1
    simp [truthy] at h1
    cases hn : e.style_name with
    | none => simp [transform_paragraph, idIn, truthy, hid, hn, h1, undefined_style_ids]
    | some t =>
      rw [hn] at h2
      simp [truthy] at h2
      simp [transform_paragraph, idIn, truthy, hid, hn, h1, h2, undefined_style_ids]

/-- Every output of the resolver is either the unchanged input or carries one
of the four canonical `(style_id, style_name)` pairs. -/
lemma transform_result (e : ParagraphElement) :
    transform_paragraph e = e ∨
    ((transform_paragraph e).style_id = some "Heading1" ∧
      (transform_paragraph e).style_name = some "Заголовок №1") ∨
    ((transform_paragraph e).style_id = some "Heading2" ∧
      (transform_paragraph e).style_name = some "Заголовок №2") ∨
    ((transform_paragraph e).style_id = some "TableCaption" ∧
      (transform_paragraph e).style_name = some "Подпись к таблице") ∨
    ((transform_paragraph e).style_id = some "Normal" ∧
      (transform_paragraph e).style_name = some "Основной текст") := by
  by_cases h1 : idIn e undefined_style_ids = true
  · obtain ⟨s, hid, hs⟩ := idIn_iff.mp h1
    fin_cases hs
    · exact Or.inr (Or.inr (Or.inr (Or.inr (by rw [transform_idOther e _ hid (by decide)]; exact ⟨rfl, rfl⟩))))
    · exact Or.inr (Or.inr (Or.inr (Or.inr (by rw [transform_idOther e _ hid (by decide)]; exact ⟨rfl, rfl⟩))))
    · exact Or.inr (Or.inr (Or.inr (Or.inr (by rw [transform_idOther e _ hid (by decide)]; exact ⟨rfl, rfl⟩))))
    · exact Or.inr (Or.inr (Or.inr (Or.inr (by rw [transform_idOther e _ hid (by decide)]; exact ⟨rfl, rfl⟩))))
    · exact Or.inr (Or.inr (Or.inr (Or.inr (by rw [transform_idOther e _ hid (by decide)]; exact ⟨rfl, rfl⟩))))
    · exact Or.inr (Or.inr (Or.inr (Or.inl (by rw [transform_ida9 e hid]; exact ⟨rfl, rfl⟩))))
    · exact Or.inr (Or.inr (Or.inr (Or.inr (by rw [transform_idOther e _ hid (by decide)]; exact ⟨rfl, rfl⟩))))
    · exact Or.inr (Or.inr (Or.inl (by rw [transform_id24 e hid]; exact ⟨rfl, rfl⟩)))
    · exact Or.inr (Or.inl (by rw [transform_id11 e hid]; exact ⟨rfl, rfl⟩))
    · exact Or.inr (Or.inr (Or.inr (Or.inr (by rw [transform_idOther e _ hid (by decide)]; exact ⟨rfl, rfl⟩))))
  · have h1f : idIn e undefined_style_ids = false := by
      cases h : idIn e undefined_style_ids with
      | false => rfl
      | true => exact absurd h h1
    by_cases h2 : (e.style_name == some "None" && truthy e.style_id) = true
    · have hn : e.style_name = some "None" := by
        have := (Bool.and_eq_true _ _).mp h2
        simpa using this.1
      have ht : truthy e.style_id = true := ((Bool.and_eq_true _ _).mp h2).2
      exact Or.inl (transform_noneName_unchanged e h1f hn ht)
    · have h2f : (e.style_name == some "None" && truthy e.style_id) = false := by
        cases h : (e.style_name == some "None" && truthy e.style_id) with
        | false => rfl
        | true => exact absurd h h2
      by_cases h3 : (!truthy e.style_id && !truthy e.style_name) = true
      · have hti : truthy e.style_id = false := by
          have := ((Bool.and_eq_true _ _).mp h3).1
          simpa using this
        have htn : truthy e.style_name = false := by
          have := ((Bool.and_eq_true _ _).mp h3).2
          simpa using this
        exact Or.inr (Or.inr (Or.inr (Or.inr (by rw [transform_bothEmpty e hti htn]; exact ⟨rfl, rfl⟩))))
      · have h3f : (!truthy e.style_id && !truthy e.style_name) = false := by
          cases h : (!truthy e.style_id && !truthy e.style_name) with
          | false => rfl
          | true => exact absurd h h3
        exact Or.inl (transform_unchanged e h1f h2f h3f)

/-! ## Resolver claims -/

/-- **C1.** For every paragraph element whose `style_id` is in the ambiguous-id
set, `transform_paragraph` produces the fixed canonical pair determined by the
id alone: `"11"` gives `(Heading1, Заголовок №1)`, `"24"` gives
`(Heading2, Заголовок №2)`, `"a9"` gives `(TableCaption, Подпись к таблице)`,
and every other id in the set gives `(Normal, Основной текст)` — independent of
the element's content or `style_name`. -/
theorem resolve_ambiguous_ids_canonical (e : ParagraphElement) (s : String)
    (hid : e.style_id = some s) (hs : s ∈ undefined_style_ids) :
    (s = "11" → transform_paragraph e =
      { e with style_id := some "Heading1", style_name := some "Заголовок №1" }) ∧
    (s = "24" → transform_paragraph e =
      { e with style_id := some "Heading2", style_name := some "Заголовок №2" }) ∧
    (s = "a9" → transform_paragraph e =
      { e with style_id := some "TableCaption", style_name := some "Подпись к таблице" }) ∧
    (s ≠ "11" → s ≠ "24" → s ≠ "a9" → transform_paragraph e =
      { e with style_id := some "Normal", style_name := some "Основной текст" }) := by
  refine ⟨fun h => ?_, fun h => ?_, fun h => ?_, fun h11 h24 ha9 => ?_⟩
  · rw [h] at hid; exact transform_id11 e hid
  · rw [h] at hid; exact transform_id24 e hid
  · rw [h] at hid; exact transform_ida9 e hid
  · fin_cases hs
    · exact transform_idOther e _ hid (by decide)
    · exact transform_idOther e _ hid (by decide)
    · exact transform_idOther e _ hid (by decide)
    · exact transform_idOther e _ hid (by decide)
    · exact transform_idOther e _ hid (by decide)
    · exact absurd rfl ha9
    · exact transform_idOther e _ hid (by decide)
    · exact absurd rfl h24
    · exact absurd rfl h11
    · exact transform_idOther e _ hid (by decide)

/-- Witness for C1: the four canonical outcomes at concrete inputs. -/
theorem resolve_ambiguous_ids_canonical_witness :
    transform_paragraph ⟨some "11", some "Ordinary", ["w"]⟩ =
      ⟨some "Heading1", some "Заголовок №1", ["w"]⟩ ∧
    transform_paragraph ⟨some "24", some "x", []⟩ =
      ⟨some "Heading2", some "Заголовок №2", []⟩ ∧
    transform_paragraph ⟨some "a9", none, []⟩ =
      ⟨some "TableCaption", some "Подпись к таблице", []⟩ ∧
    transform_paragraph ⟨some "20", some "y", []⟩ =
      ⟨some "Normal", some "Основной текст", []⟩ := by
  refine ⟨?_, ?_, ?_, ?_⟩
  · exact (resolve_ambiguous_ids_canonical ⟨some "11", some "Ordinary", ["w"]⟩ "11"
      rfl (by decide)).1 rfl
  · exact (resolve_ambiguous_ids_canonical ⟨some "24", some "x", []⟩ "24"
      rfl (by decide)).2.1 rfl
  · exact (resolve_ambiguous_ids_canonical ⟨some "a9", none, []⟩ "a9"
      rfl (by decide)).2.2.1 rfl
  · exact (resolve_ambiguous_ids_canonical ⟨some "20", some "y", []⟩ "20"
      rfl (by decide)).2.2.2 (by decide) (by decide) (by decide)

/-- **C3, counterexample.** The claim says an element with
`style_name = "None"` and a non-empty id outside the informal set
`{Style2, Style4, Style18}` passes through unchanged; but id `"11"` is outside
that set and non-empty, and the resolver rewrites it to the Heading1 pair via
the ambiguous-id rule, which fires first. -/
theorem resolve_noneName_passthrough_counterexample :
    transform_paragraph ⟨some "11", some "None", []⟩ ≠ ⟨some "11", some "None", []⟩ ∧
    ("11" ∉ ["Style2", "Style4", "Style18"]) ∧ "11" ≠ "" ∧
    transform_paragraph ⟨some "11", some "None", []⟩ =
      ⟨some "Heading1", some "Заголовок №1", []⟩ := by decide

/-- **C3, amended.** For every element with `style_name = "None"` and
`style_id` in the informal set `{Style2, Style4, Style18}`,
`transform_paragraph` yields the canonical body-text pair; and for every
element with `style_name = "None"` and a non-empty `style_id` outside the
whole ambiguous-id set, it returns the element unchanged. -/
theorem resolve_noneName_informal_and_passthrough (e : ParagraphElement) :
    (e.style_name = some "None" → idIn e ["Style2", "Style4", "Style18"] = true →
      transform_paragraph e =
        { e with style_id := some "Normal", style_name := some "Основной текст" }) ∧
    (e.style_name = some "None" → truthy e.style_id = true →
      idIn e undefined_style_ids = false → transform_paragraph e = e) := by
  constructor
  · intro _ h
    obtain ⟨s, hid, hs⟩ := idIn_iff.mp h
    fin_cases hs
    · exact transform_idOther e _ hid (by decide)
    · exact transform_idOther e _ hid (by decide)
    · exact transform_idOther e _ hid (by decide)
  · intro hn ht h1
    exact transform_noneName_unchanged e h1 hn ht

/-- Witness for C3 (amended): an informal id resolves, an unknown id passes. -/
theorem resolve_noneName_witness :
    transform_paragraph ⟨some "Style2", some "None", ["z"]⟩ =
      ⟨some "Normal", some "Основной текст", ["z"]⟩ ∧
    transform_paragraph ⟨some "Zzz", some "None", []⟩ = ⟨some "Zzz", some "None", []⟩ := by
  constructor
  · exact (resolve_noneName_informal_and_passthrough ⟨some "Style2", some "None", ["z"]⟩).1
      rfl (by decide)
  · exact (resolve_noneName_informal_and_passthrough ⟨some "Zzz", some "None", []⟩).2
      rfl (by decide) (by decide)

/-- **C8.** An element with both `style_id` and `style_name` empty or absent is
resolved to the canonical body-text pair; an element matching none of the
resolver's rules (id outside the ambiguous set, name not the `"None"` marker,
and not both fields empty) is returned unchanged. -/
theorem resolve_unstyled_default_and_passthrough (e : ParagraphElement) :
    ((truthy e.style_id = false ∧ truthy e.style_name = false) →
      transform_paragraph e =
        { e with style_id := some "Normal", style_name := some "Основной текст" }) ∧
    (idIn e undefined_style_ids = false → e.style_name ≠ some "None" →
      ¬(truthy e.style_id = false ∧ truthy e.style_name = false) →
      transform_paragraph e = e) := by
  constructor
  · rintro ⟨h1, h2⟩
    exact transform_bothEmpty e h1 h2
  · intro h1 hn h3
    have hb : (e.style_name == some "None") = false := by
      cases h : e.style_name == some "None" with
      | false => rfl
      | true => exact absurd (by simpa using h) hn
    have h3b : (!truthy e.style_id && !truthy e.style_name) = false := by
      cases hti : truthy e.style_id with
      | true => simp [hti]
      | false =>
        cases htn : truthy e.style_name with
        | true => simp [htn]
        | false => exact absurd ⟨hti, htn⟩ h3
    exact transform_unchanged e h1 (by rw [hb, Bool.false_and]) h3b

/-- Witness for C8: an unstyled element gets body text, a styled one passes. -/
theorem resolve_unstyled_witness :
    transform_paragraph ⟨none, some "", ["c"]⟩ =
      ⟨some "Normal", some "Основной текст", ["c"]⟩ ∧
    transform_paragraph ⟨some "Custom", some "MyStyle", []⟩ =
      ⟨some "Custom", some "MyStyle", []⟩ := by
  constructor
  · exact (resolve_unstyled_default_and_passthrough ⟨none, some "", ["c"]⟩).1
      ⟨by decide, by decide⟩
  · exact (resolve_unstyled_default_and_passthrough ⟨some "Custom", some "MyStyle", []⟩).2
      (by decide) (by decide) (by decide)

/-- **C9.** The resolver is idempotent: applying `transform_paragraph` twice is
the same as applying it once, for every paragraph element. -/
theorem resolve_idempotent (e : ParagraphElement) :
    transform_paragraph (transform_paragraph e) = transform_paragraph e := by
  rcases transform_result e with h | h | h | h | h
  · simp only [h]
  · exact transform_fixed _ (Or.inl h)
  · exact transform_fixed _ (Or.inr (Or.inl h))
  · exact transform_fixed _ (Or.inr (Or.inr (Or.inl h)))
  · exact transform_fixed _ (Or.inr (Or.inr (Or.inr h)))

/-! ## Classifier lemmas -/

lemma foldl_classify (ws : List String) : ∀ init : CategorizedDiagnostics,
    ws.foldl classifyStep init =
      ⟨init.undefined_styles ++ catFilter Cat.undefined ws,
       init.unrecognized_styles ++ catFilter Cat.unrecognized ws,
       init.missing_elements ++ catFilter Cat.missing ws,
       init.table_formatting_ignored ++ catFilter Cat.tableFmt ws,
       init.other_warnings ++ catFilter Cat.other ws⟩ := by
  induction ws with
  | nil => intro init; simp [catFilter]
  | cons w ws ih =>
    intro init
    rw [List.foldl_cons, ih]
    by_cases h1 : containsSubstr w "was referenced but not defined" = true
    · simp [classifyStep, catFilter, categoryOf, h1, List.filter_cons]
    · simp only [Bool.not_eq_true] at h1
      by_cases h2 : containsSubstr w "Unrecognised paragraph style" = true
      · simp [classifyStep, catFilter, categoryOf, h1, h2, List.filter_cons]
      · simp only [Bool.not_eq_true] at h2
        by_cases h3 : containsSubstr w "unrecognised element was ignored" = true
        · by_cases h4 : containsSubstr w "w:tblPrEx" = true
          · simp [classifyStep, catFilter, categoryOf, h1, h2, h3, h4, List.filter_cons]
          · simp only [Bool.not_eq_true] at h4
            simp [classifyStep, catFilter, categoryOf, h1, h2, h3, h4, List.filter_cons]
        · simp only [Bool.not_eq_true] at h3
          simp [classifyStep, catFilter, categoryOf, h1, h2, h3, List.filter_cons]

lemma analyze_eq (ws : List String) :
    analyze_style_warnings ws =
      ⟨catFilter Cat.undefined ws, catFilter Cat.unrecognized ws, catFilter Cat.missing ws,
       catFilter Cat.tableFmt ws, catFilter Cat.other ws⟩ := by
  have h := foldl_classify ws emptyCategorized
  simpa [analyze_style_warnings, emptyCategorized] using h

lemma catFilter_length_sum (ws : List String) :
    (catFilter Cat.undefined ws).length + (catFilter Cat.unrecognized ws).length +
    (catFilter Cat.missing ws).length + (catFilter Cat.tableFmt ws).length +
    (catFilter Cat.other ws).length = ws.length := by
  induction ws with
  | nil => rfl
  | cons w ws ih =>
    cases h : categoryOf w <;>
      simp [catFilter, List.filter_cons, h] at ih ⊢ <;> omega

lemma mem_catFilter {w : String} {c : Cat} {ws : List String}
    (h : w ∈ catFilter c ws) : categoryOf w = c := by
  have h2 := List.of_mem_filter h
  simpa using h2

lemma mem_catFilter_of {w : String} {c : Cat} {ws : List String}
    (hw : w ∈ ws) (hc : categoryOf w = c) : w ∈ catFilter c ws :=
  List.mem_filter.mpr ⟨hw, by simp [hc]⟩

lemma categoryOf_ne_missing_of_tbl (w : String)
    (h : containsSubstr w "w:tblPrEx" = true) : categoryOf w ≠ Cat.missing := by
  unfold categoryOf
  split_ifs <;> simp_all

/-- A warning matching the undefined-style pattern as well as both
ignored-element patterns, exercising the classifier's first-match precedence. -/
def tripleMsg : String :=
  "Paragraph style with ID z was referenced but not defined, and an unrecognised element was ignored: w:tblPrEx"

/-- **C2, counterexample.** The claim sends every message containing both the
ignored-element phrase and the `w:tblPrEx` marker to
`table_formatting_ignored`; but a message that additionally matches the
earlier undefined-style pattern is routed to `undefined_styles` by the
first-match rule, and `table_formatting_ignored` stays empty. -/
theorem classify_tbl_precedence_counterexample :
    containsSubstr tripleMsg "unrecognised element was ignored" = true ∧
    containsSubstr tripleMsg "w:tblPrEx" = true ∧
    (analyze_style_warnings [tripleMsg]).table_formatting_ignored = [] ∧
    (analyze_style_warnings [tripleMsg]).undefined_styles = [tripleMsg] := by decide

/-- **C2, amended.** `analyze_style_warnings` is a total partition: the five
category lists' lengths sum to the input length and no message is in two
categories; a message containing the ignored-element phrase and the
`w:tblPrEx` marker while matching neither of the two earlier patterns goes to
`table_formatting_ignored`; and a message containing the `w:tblPrEx` marker is
never in `missing_elements`. -/
theorem classify_partition (ws : List String) :
    ((analyze_style_warnings ws).undefined_styles.length +
     (analyze_style_warnings ws).unrecognized_styles.length +
     (analyze_style_warnings ws).missing_elements.length +
     (analyze_style_warnings ws).table_formatting_ignored.length +
     (analyze_style_warnings ws).other_warnings.length = ws.length) ∧
    (∀ w : String,
      ¬(w ∈ (analyze_style_warnings ws).undefined_styles ∧
        w ∈ (analyze_style_warnings ws).unrecognized_styles) ∧
      ¬(w ∈ (analyze_style_warnings ws).undefined_styles ∧
        w ∈ (analyze_style_warnings ws).missing_elements) ∧
      ¬(w ∈ (analyze_style_warnings ws).undefined_styles ∧
        w ∈ (analyze_style_warnings ws).table_formatting_ignored) ∧
      ¬(w ∈ (analyze_style_warnings ws).undefined_styles ∧
        w ∈ (analyze_style_warnings ws).other_warnings) ∧
      ¬(w ∈ (analyze_style_warnings ws).unrecognized_styles ∧
        w ∈ (analyze_style_warnings ws).missing_elements) ∧
      ¬(w ∈ (analyze_style_warnings ws).unrecognized_styles ∧
        w ∈ (analyze_style_warnings ws).table_formatting_ignored) ∧
      ¬(w ∈ (analyze_style_warnings ws).unrecognized_styles ∧
        w ∈ (analyze_style_warnings ws).other_warnings) ∧
      ¬(w ∈ (analyze_style_warnings ws).missing_elements ∧
        w ∈ (analyze_style_warnings ws).table_formatting_ignored) ∧
      ¬(w ∈ (analyze_style_warnings ws).missing_elements ∧
        w ∈ (analyze_style_warnings ws).other_warnings) ∧
      ¬(w ∈ (analyze_style_warnings ws).table_formatting_ignored ∧
        w ∈ (analyze_style_warnings ws).other_warnings)) ∧
    (∀ w : String, w ∈ ws →
      containsSubstr w "unrecognised element was ignored" = true →
      containsSubstr w "w:tblPrEx" = true →
      containsSubstr w "was referenced but not defined" = false →
      containsSubstr w "Unrecognised paragraph style" = false →
      w ∈ (analyze_style_warnings ws).table_formatting_ignored) ∧
    (∀ w : String, containsSubstr w "w:tblPrEx" = true →
      w ∉ (analyze_style_warnings ws).missing_elements) := by
  rw [analyze_eq]
  refine ⟨catFilter_length_sum ws, ?_, ?_, ?_⟩
  · intro w
    refine ⟨?_, ?_, ?_, ?_, ?_, ?_, ?_, ?_, ?_, ?_⟩ <;>
      exact fun ⟨ha, hb⟩ =>
        absurd ((mem_catFilter ha).symm.trans (mem_catFilter hb)) (by decide)
  · intro w hw h3 h4 h1 h2
    exact mem_catFilter_of hw (by simp [categoryOf, h1, h2, h3, h4])
  · intro w htbl hmem
    exact categoryOf_ne_missing_of_tbl w htbl (mem_catFilter hmem)

/-- A warning matching the undefined-style pattern only. -/
def msgU : String := "Paragraph style with ID brokenId was referenced but not defined"

/-- A warning matching the ignored-element pattern with the table marker. -/
def msgTbl : String := "An unrecognised element was ignored: w:tblPrEx"

/-- Witness for C2 (amended): a concrete two-message run. -/
theorem classify_partition_witness :
    ((analyze_style_warnings [msgU, msgTbl]).undefined_styles.length +
     (analyze_style_warnings [msgU, msgTbl]).unrecognized_styles.length +
     (analyze_style_warnings [msgU, msgTbl]).missing_elements.length +
     (analyze_style_warnings [msgU, msgTbl]).table_formatting_ignored.length +
     (analyze_style_warnings [msgU, msgTbl]).other_warnings.length = 2) ∧
    msgTbl ∈ (analyze_style_warnings [msgU, msgTbl]).table_formatting_ignored ∧
    msgTbl ∉ (analyze_style_warnings [msgU, msgTbl]).missing_elements := by
  have h := classify_partition [msgU, msgTbl]
  refine ⟨h.1, ?_, ?_⟩
  · exact h.2.2.1 msgTbl (by decide) (by decide) (by decide) (by decide) (by decide)
  · exact h.2.2.2 msgTbl (by decide)

/-! ## Summary and mapping-table claims -/

/-- **C7, counterexample.** The claim returns the fixed all-handled message
only when every category is empty, and otherwise a clause per non-empty
category; but `get_warning_summary` never consults `other_warnings`, so a
dictionary whose only non-empty category is `other_warnings` still yields the
all-handled message. -/
theorem summary_other_ignored_counterexample :
    get_warning_summary ⟨[], [], [], [], ["mystery warning"]⟩ =
      "Все стили обработаны успешно" ∧
    (⟨[], [], [], [], ["mystery warning"]⟩ : CategorizedDiagnostics).other_warnings ≠ [] := by
  decide

/-- **C7, amended.** `get_warning_summary` returns the fixed all-handled
message when the four reported categories (undefined, unrecognized,
table-formatting, missing) are all empty; `other_warnings` never influences
the summary; otherwise it returns the semicolon-joined clause list, in which
undefined/unrecognized/missing clauses carry counts and the table-formatting
clause is a fixed note; and one undefined-style plus one unrecognized-style
message yield the two-clause summary with both counts. -/
theorem summary_clauses (c : CategorizedDiagnostics) :
    ((c.undefined_styles = [] ∧ c.unrecognized_styles = [] ∧
      c.table_formatting_ignored = [] ∧ c.missing_elements = []) →
      get_warning_summary c = "Все стили обработаны успешно") ∧
    (∀ oth : List String,
      get_warning_summary { c with other_warnings := oth } = get_warning_summary c) ∧
    (summary_parts c ≠ [] →
      get_warning_summary c = String.intercalate "; " (summary_parts c)) ∧
    (∀ u r : String, ∀ oth : List String,
      get_warning_summary ⟨[u], [r], [], [], oth⟩ =
        "Неопределенные стили: 1; Нераспознанные стили: 1") := by
  refine ⟨?_, fun _ => rfl, ?_, ?_⟩
  · rintro ⟨h1, h2, h3, h4⟩
    simp [get_warning_summary, summary_parts, h1, h2, h3, h4]
  · intro h
    cases hp : summary_parts c with
    | nil => exact absurd hp h
    | cons a t => simp [get_warning_summary, hp]
  · intro u r oth
    have hp : summary_parts ⟨[u], [r], [], [], oth⟩ =
        ["Неопределенные стили: " ++ toString (1 : Nat),
         "Нераспознанные стили: " ++ toString (1 : Nat)] := by
      simp [summary_parts]
    unfold get_warning_summary
    rw [hp]
    decide

/-- Witness for C7 (amended): the all-empty and the two-clause inputs. -/
theorem summary_clauses_witness :
    get_warning_summary ⟨[], [], [], [], []⟩ = "Все стили обработаны успешно" ∧
    get_warning_summary ⟨["a"], ["b"], [], [], []⟩ =
      "Неопределенные стили: 1; Нераспознанные стили: 1" := by
  constructor
  · exact (summary_clauses ⟨[], [], [], [], []⟩).1 ⟨rfl, rfl, rfl, rfl⟩
  · exact (summary_clauses ⟨["a"], ["b"], [], [], []⟩).2.2.2 "a" "b" []

set_option maxRecDepth 40000 in
/-- **C6.** Every canonical pair the resolver can emit — ids `Heading1`,
`Heading2`, `TableCaption`, `Normal` and names `Заголовок №1`, `Заголовок №2`,
`Подпись к таблице`, `Основной текст` — has a matching rule in the style map
built by `create_style_mapping`: the rule line is in the built list and occurs
in the joined mapping string. -/
theorem mapping_covers_resolver_outputs :
    (styleRule "Заголовок №1" "h1" ∈ create_style_mapping_list ∧
      containsSubstr create_style_mapping (styleRule "Заголовок №1" "h1") = true) ∧
    (styleRule "Заголовок №2" "h2" ∈ create_style_mapping_list ∧
      containsSubstr create_style_mapping (styleRule "Заголовок №2" "h2") = true) ∧
    (styleRule "Подпись к таблице" "p.table-caption" ∈ create_style_mapping_list ∧
      containsSubstr create_style_mapping
        (styleRule "Подпись к таблице" "p.table-caption") = true) ∧
    (styleRule "Основной текст" "p" ∈ create_style_mapping_list ∧
      containsSubstr create_style_mapping (styleRule "Основной текст" "p") = true) ∧
    (styleRule "Heading1" "h1" ∈ create_style_mapping_list ∧
      containsSubstr create_style_mapping (styleRule "Heading1" "h1") = true) ∧
    (styleRule "Heading2" "h2" ∈ create_style_mapping_list ∧
      containsSubstr create_style_mapping (styleRule "Heading2" "h2") = true) ∧
    (styleRule "TableCaption" "p.table-caption" ∈ create_style_mapping_list ∧
      containsSubstr create_style_mapping
        (styleRule "TableCaption" "p.table-caption") = true) ∧
    (styleRule "Normal" "p" ∈ create_style_mapping_list ∧
      containsSubstr create_style_mapping (styleRule "Normal" "p") = true) := by
  decide

/-! ## Orchestrator claims -/

lemma ne_empty_of_docx {s : String} (h : strEndsWith (strToLower s) ".docx" = true) :
    (s == "") = false := by
  cases hb : s == "" with
  | false => rfl
  | true =>
    have hs : s = "" := by simpa using hb
    subst hs
    exact absurd h (by decide)

/-- **C5.** `convert_file` rejects an empty filename or a filename without the
`.docx` extension with `invalidInput` (HTTP 400), and the rejection depends on
neither the uploaded bytes nor the renderer; with a `.docx` filename and a
payload the renderer rejects, it fails with `conversionFailure` (HTTP 500)
wrapping the renderer's error, never with `invalidInput`. -/
theorem convert_rejects_before_render (render : Renderer) (file : UploadFileM) :
    (file.filename = "" →
      ∀ render2 : Renderer, ∀ content2 : List Nat,
        convert_file render2 ⟨file.filename, content2⟩ =
          Except.error (ConvertError.invalidInput "Файл не выбран")) ∧
    (strEndsWith (strToLower file.filename) ".docx" = false → file.filename ≠ "" →
      ∀ render2 : Renderer, ∀ content2 : List Nat,
        convert_file render2 ⟨file.filename, content2⟩ =
          Except.error (ConvertError.invalidInput "Поддерживаются только DOCX файлы")) ∧
    (strEndsWith (strToLower file.filename) ".docx" = true →
      ∀ e : String, render file.content = Except.error e →
        convert_file render file =
          Except.error
            (ConvertError.conversionFailure ("Ошибка при конвертации файла: " ++ e))) := by
  refine ⟨?_, ?_, ?_⟩
  · intro h render2 content2
    simp [convert_file, h]
  · intro hext hne render2 content2
    have hb : (file.filename == "") = false := by simpa using hne
    simp [convert_file, hb, hext]
  · intro hext e herr
    have hb := ne_empty_of_docx hext
    simp [convert_file, hb, hext, herr]

/-- Witness for C5: a rejected extension and a renderer failure. -/
theorem convert_rejects_witness :
    convert_file renderOkEmpty ⟨"report.txt", [7]⟩ =
      Except.error (ConvertError.invalidInput "Поддерживаются только DOCX файлы") ∧
    convert_file renderFail ⟨"report.docx", [7]⟩ =
      Except.error (ConvertError.conversionFailure
        "Ошибка при конвертации файла: not a valid docx payload") := by
  constructor
  · exact (convert_rejects_before_render renderOkEmpty ⟨"report.txt", [7]⟩).2.1
      (by decide) (by decide) renderOkEmpty [7]
  · exact (convert_rejects_before_render renderFail ⟨"report.docx", [7]⟩).2.2
      (by decide) "not a valid docx payload" rfl

/-- **C4.** When the renderer returns, `convert_file` does not raise even if
the error list is non-empty; the result's status is `success` iff the error
list is empty and `success_with_errors` otherwise, depending only on the
error-tagged messages (warnings never change it); and with zero diagnostics
the status is `success`, both counts are `0`, and the summary is the fixed
all-handled message. -/
theorem convert_status_reflects_errors (render : Renderer) (file : UploadFileM)
    (html : String) (msgs : List MammothMessage)
    (hn : strEndsWith (strToLower file.filename) ".docx" = true)
    (hr : render file.content = Except.ok (html, msgs)) :
    exceptIsOk (convert_file render file) = true ∧
    ∀ out : ConversionOutcome, convert_file render file = Except.ok out →
      ((out.status = "success" ↔ out.conversion_errors = []) ∧
       (out.conversion_errors ≠ [] → out.status = "success_with_errors") ∧
       out.status = (if (msgs.filter fun m => m.type == "error").isEmpty
         then "success" else "success_with_errors") ∧
       (msgs = [] → out.status = "success" ∧ out.warnings_count = 0 ∧
         out.errors_count = 0 ∧
         out.warning_summary = "Все стили обработаны успешно")) := by
  have hb := ne_empty_of_docx hn
  have hconv : convert_file render file = Except.ok
      { original_filename := file.filename
        file_size := file.content.length
        html_content := html
        complete_html := create_complete_html html file.filename
        conversion_warnings := (msgs.filter fun m => m.type == "warning").map fun m => m.message
        conversion_errors := (msgs.filter fun m => m.type == "error").map fun m => m.message
        style_analysis := analyze_style_warnings
          ((msgs.filter fun m => m.type == "warning").map fun m => m.message)
        warning_summary := get_warning_summary (analyze_style_warnings
          ((msgs.filter fun m => m.type == "warning").map fun m => m.message))
        warnings_count := ((msgs.filter fun m => m.type == "warning").map fun m => m.message).length
        errors_count := ((msgs.filter fun m => m.type == "error").map fun m => m.message).length
        status := if ((msgs.filter fun m => m.type == "error").map fun m => m.message).isEmpty
          then "success" else "success_with_errors" } := by
    unfold convert_file
    rw [hb, hn, hr]
    rfl
  refine ⟨by rw [hconv]; rfl, ?_⟩
  intro out hout
  rw [hconv] at hout
  injection hout with hrec
  subst hrec
  refine ⟨?_, ?_, ?_, ?_⟩
  · cases hf : msgs.filter fun m => m.type == "error" with
    | nil => simp [hf]
    | cons m ms => simp [hf]
  · cases hf : msgs.filter fun m => m.type == "error" with
    | nil => simp [hf]
    | cons m ms => simp [hf]
  · cases hf : msgs.filter fun m => m.type == "error" with
    | nil => simp [hf]
    | cons m ms => simp [hf]
  · intro hm
    subst hm
    exact ⟨rfl, rfl, rfl, rfl⟩

/-- Witness for C4: a renderer stub with zero diagnostics. -/
theorem convert_status_witness :
    exceptIsOk (convert_file renderOkEmpty ⟨"a.docx", [1]⟩) = true ∧
    (getOk (convert_file renderOkEmpty ⟨"a.docx", [1]⟩)).status = "success" ∧
    (getOk (convert_file renderOkEmpty ⟨"a.docx", [1]⟩)).warnings_count = 0 ∧
    (getOk (convert_file renderOkEmpty ⟨"a.docx", [1]⟩)).errors_count = 0 ∧
    (getOk (convert_file renderOkEmpty ⟨"a.docx", [1]⟩)).warning_summary =
      "Все стили обработаны успешно" := by
  have h := convert_status_reflects_errors renderOkEmpty ⟨"a.docx", [1]⟩ "<p>ok</p>" []
    (by decide) rfl
  have h2 := h.2 (getOk (convert_file renderOkEmpty ⟨"a.docx", [1]⟩)) (by rfl)
  have h3 := h2.2.2.2 rfl
  exact ⟨h.1, h3.1, h3.2.1, h3.2.2.1, h3.2.2.2⟩

/-- **C10.** The wrapped full-document markup equals the rendered markup on
every successful conversion: `_create_complete_html` adds no page shell,
title, or styling around the renderer's output. -/
theorem complete_html_no_wrapping (render : Renderer) (file : UploadFileM)
    (out : ConversionOutcome) (hout : convert_file render file = Except.ok out) :
    out.complete_html = out.html_content ∧
    ∀ html fname : String, create_complete_html html fname = html := by
  refine ⟨?_, fun html fname => rfl⟩
  unfold convert_file at hout
  split at hout
  · exact absurd hout (by simp)
  · split at hout
    · exact absurd hout (by simp)
    · cases hren : render file.content with
      | error e =>
        rw [hren] at hout
        exact absurd hout (by simp)
      | ok pr =>
        obtain ⟨html, msgs⟩ := pr
        rw [hren] at hout
        injection hout with hrec
        subst hrec
        rfl

/-- Witness for C10: the concrete successful conversion. -/
theorem complete_html_no_wrapping_witness :
    (getOk (convert_file renderOkEmpty ⟨"a.docx", [1]⟩)).complete_html =
      (getOk (convert_file renderOkEmpty ⟨"a.docx", [1]⟩)).html_content :=
  (complete_html_no_wrapping renderOkEmpty ⟨"a.docx", [1]⟩
    (getOk (convert_file renderOkEmpty ⟨"a.docx", [1]⟩)) (by rfl)).1

end WordConverter
